import Mathlib

/-!
Verification development for the z-plug repository: a CLAP plugin host
(`z_plug_host`) and an audio playback engine (`z_plug_engine`).

The repository ships the two public C headers (`z_plug_host.h`,
`z_plug_engine.h`); the implementations live in prebuilt static libraries.
The behavioural model below is therefore a shallow embedding built from the
header doc comments and the design specification, with doubles modelled as
rationals, machine integers as naturals, and per-channel sample blocks as
functions from (channel, frame index) to sample value.
-/

/- ----------------------------------------------------------------------
   Plugin host: parameter model (z_plug_host.h)
   ---------------------------------------------------------------------- -/

/-- Process status, mirroring `ZphProcessStatus` in z_plug_host.h. -/
inductive ZphProcessStatus
  | error
  | cont
  | contIfNotQuiet
  | tail
  | sleep
deriving DecidableEq

/-- Modelled from the spec: the `ZphPlugin` handle is opaque in the header.
Its parameter-related state, per the spec data model: a fixed set of
parameter identifiers, the current (last-applied) parameter values, and the
pending queue of parameter events in enqueue order. Queue boundedness and
drop-on-full are concurrency aspects not modelled here. -/
structure ZphPlugin where
  paramIds : List Nat
  params : Nat → Rat
  pending : List (Nat × Rat)

/-- The operation `zph_set_param_value`: queue a parameter change to be
applied on the next `zph_process` call (appends to the pending queue). -/
def zph_set_param_value (p : ZphPlugin) (id : Nat) (v : Rat) : ZphPlugin :=
  { p with pending := p.pending ++ [(id, v)] }

/-- Apply a list of (identifier, value) events in order to a parameter
valuation: later events overwrite earlier ones for the same identifier. -/
def applyEvents (f : Nat → Rat) : List (Nat × Rat) → Nat → Rat
  | [] => f
  | e :: rest => applyEvents (fun j => if j = e.1 then e.2 else f j) rest

/-- The value of the last event for `id` in an event list (enqueue order),
if any: the spec's "last one enqueued" for a given identifier. -/
def lastValue? (evs : List (Nat × Rat)) (id : Nat) : Option Rat :=
  match evs with
  | [] => none
  | e :: rest =>
    match lastValue? rest id with
    | some v => some v
    | none => if e.1 = id then some e.2 else none

/-- Modelled from the spec: the parameter-event handling of `zph_process`
(implementation not under src). Per the header, any parameter changes
queued via `zph_set_param_value` are applied at sample offset 0 of the
block; per the spec, the host atomically drains all pending events,
last-value-wins per identifier. The plugin's DSP transform and status are
modelled separately on the engine side (`AttachedPlugin`). -/
def zph_process (p : ZphPlugin) : ZphPlugin :=
  { p with params := applyEvents p.params p.pending, pending := [] }

/-- The operation `zph_get_param_value`: read the current value of a
parameter by its stable identifier; succeeds exactly when the identifier
is one the plugin exposes, and reflects last-applied values (not pending
queued values). -/
def zph_get_param_value (p : ZphPlugin) (id : Nat) : Option Rat :=
  if id ∈ p.paramIds then some (p.params id) else none

/- ----------------------------------------------------------------------
   Plugin host: state persistence (z_plug_host.h)
   ---------------------------------------------------------------------- -/

/-- Modelled from the spec: the state blob written by `zph_save_state`
(implementation not under src). The blob is opaque and plugin-defined; the
only mandated contract is round-trip fidelity of parameter values, so the
model serialises the (identifier, current value) pairs of the plugin's
parameters. -/
def zph_save_blob (p : ZphPlugin) : List (Nat × Rat) :=
  p.paramIds.map (fun i => (i, p.params i))

/-- The byte count `zph_save_state` reports as required, modelled as the
length of the serialised blob. -/
def zph_required_size (p : ZphPlugin) : Nat :=
  (zph_save_blob p).length

/-- Modelled from the spec: `zph_save_state` (implementation not under
src), from its header contract. `hasBuffer` models whether the destination
pointer is non-NULL and `capacity` the entry value of `*size`; the result
is (return value, exit value of `*size`, bytes written if any). With no
buffer it reports the required size and returns false; with a buffer of
sufficient capacity it writes the blob, reports the bytes written and
returns true. -/
def zph_save_state (p : ZphPlugin) (hasBuffer : Bool) (capacity : Nat) :
    Bool × Nat × Option (List (Nat × Rat)) :=
  if hasBuffer = false then
    (false, zph_required_size p, none)
  else if zph_required_size p ≤ capacity then
    (true, zph_required_size p, some (zph_save_blob p))
  else
    (false, zph_required_size p, none)

/-- Modelled from the spec: `zph_load_state` (implementation not under
src): consumes a saved blob read-only and restores the serialised
parameter values. -/
def zph_load_state (p : ZphPlugin) (blob : List (Nat × Rat)) : ZphPlugin :=
  { p with params := applyEvents p.params blob }

/-- Concrete host instance used by witnesses: two parameters, three pending
events for evaluation of the drain. -/
def sampleHost : ZphPlugin :=
  { paramIds := [1, 2]
  , params := fun _ => 0
  , pending := [(1, 2), (1, 5), (2, 7)] }

/-- Host with the configuration of `sampleHost` but fresh default values,
used as the load target in the C7 witness. -/
def freshHost : ZphPlugin :=
  { paramIds := [1, 2]
  , params := fun _ => 3
  , pending := [] }

/- ----------------------------------------------------------------------
   Engine: data model (z_plug_engine.h)
   ---------------------------------------------------------------------- -/

/-- Transport state of the engine: Stopped, Playing or Paused. -/
inductive ZpeTransport
  | stopped
  | playing
  | paused
deriving DecidableEq

/-- A decoded sample buffer: channel count, total frame length, and the
flat non-interleaved per-channel float samples, modelled as a function
from (channel, frame index) to sample value. -/
structure AudioBuffer where
  channels : Nat
  length : Nat
  data : Nat → Nat → Rat

/-- The engine's view of an attached plugin for routing: the in-place
block transform it performs and the status its `zph_process` returns for
the block. The DSP itself is opaque and supplied externally. -/
structure AttachedPlugin where
  transform : (Nat → Nat → Rat) → (Nat → Nat → Rat)
  status : ZphProcessStatus

/-- Modelled from the spec: the opaque `ZpeEngine` handle, per the spec
data model: output sample rate and block size fixed at creation, transport
state, absolute sample position, loop flag, the optionally loaded decoded
buffer, and a non-owning reference to an optionally attached plugin. -/
structure ZpeEngine where
  sampleRate : Rat
  bufferSize : Nat
  transport : ZpeTransport
  position : Nat
  looping : Bool
  buffer? : Option AudioBuffer
  plugin? : Option AttachedPlugin

/-- The operation `zpe_create`: per the header, passing 0 for the sample
rate substitutes 44100 Hz and passing 0 for the buffer size substitutes
512 frames; the engine starts stopped at position 0, not looping, with no
file loaded and no plugin attached. Allocation failure (NULL return) is
outside the model: the function is total. -/
def zpe_create (sample_rate : Rat) (buffer_size : Nat) : ZpeEngine :=
  { sampleRate := if sample_rate = 0 then 44100 else sample_rate
  , bufferSize := if buffer_size = 0 then 512 else buffer_size
  , transport := ZpeTransport.stopped
  , position := 0
  , looping := false
  , buffer? := none
  , plugin? := none }

/-- The query `zpe_get_sample_rate`: the engine's output sample rate. -/
def zpe_get_sample_rate (e : ZpeEngine) : Rat :=
  e.sampleRate

/-- The query `zpe_get_position`: current playback position in samples. -/
def zpe_get_position (e : ZpeEngine) : Nat :=
  e.position

/-- The query `zpe_get_length`: total length of the loaded file in
samples; per the header, 0 if no file is loaded. -/
def zpe_get_length (e : ZpeEngine) : Nat :=
  match e.buffer? with
  | none => 0
  | some buf => buf.length

/-- The query `zpe_get_channel_count`: channel count of the loaded file;
per the header, 0 if no file is loaded. -/
def zpe_get_channel_count (e : ZpeEngine) : Nat :=
  match e.buffer? with
  | none => 0
  | some buf => buf.channels

/-- The operation `zpe_set_plugin`: attach a plugin (the caller retains
ownership), or pass NULL (`none`) to detach and use passthrough mode. -/
def zpe_set_plugin (e : ZpeEngine) (p : Option AttachedPlugin) : ZpeEngine :=
  { e with plugin? := p }

/-- The operation `zpe_set_looping`: enable or disable looping. -/
def zpe_set_looping (e : ZpeEngine) (loop : Bool) : ZpeEngine :=
  { e with looping := loop }

/-- The operation `zpe_stop`: stop playback and reset position to 0. -/
def zpe_stop (e : ZpeEngine) : ZpeEngine :=
  { e with transport := ZpeTransport.stopped, position := 0 }

/-- Modelled from the spec: `zpe_load_file` (implementation not under
src). WAV container parsing and PCM decoding are external collaborators,
so the model receives the decoded buffer directly. Per the header and the
spec, loading is legal in any state, stops playback, replaces the decoded
buffer wholesale and resets position to 0. Decode failure (a false
return) leaves the engine unchanged and is outside this model: the
function models the successful path. -/
def zpe_load_file (e : ZpeEngine) (buf : AudioBuffer) : ZpeEngine :=
  { e with transport := ZpeTransport.stopped, position := 0, buffer? := some buf }

/-- Modelled from the spec: `zpe_seek` (implementation not under src).
Per the spec, seek is legal in any state and clamps the requested sample
position to [0, length); with no buffer loaded the position stays 0. -/
def zpe_seek (e : ZpeEngine) (n : Nat) : ZpeEngine :=
  match e.buffer? with
  | none => { e with position := 0 }
  | some buf => { e with position := min n (buf.length - 1) }

/- ----------------------------------------------------------------------
   Engine: routing mixer (spec section 4.3)
   ---------------------------------------------------------------------- -/

/-- A block of silence: every sample of every channel is 0. -/
def silenceBlock : Nat → Nat → Rat :=
  fun _ _ => 0

/-- Modelled from the spec: step 2 of the Routing Mixer per-block
algorithm (implementation not under src). Reading a block at `pos`: frames
inside the buffer come from the buffer; past end-of-buffer, if looping is
enabled the read wraps seamlessly to position 0 (modulo the length),
otherwise the remainder is zero-filled. -/
def zpe_fetch (buf : AudioBuffer) (looping : Bool) (pos : Nat) : Nat → Nat → Rat :=
  fun ch i =>
    if pos + i < buf.length then buf.data ch (pos + i)
    else if looping then
      if buf.length = 0 then 0 else buf.data ch ((pos + i) % buf.length)
    else 0

/-- Modelled from the spec: the transport-state update of one Routing
Mixer block (steps 1-3, implementation not under src). When playing with a
loaded buffer: looping advances the position modulo the buffer length;
otherwise, a block that reaches or passes end-of-buffer leaves the
position at the buffer length and transitions the transport to Stopped
after this block, and an interior block just advances the position. When
stopped or paused, or with no buffer, nothing changes. -/
def zpe_advance (e : ZpeEngine) (fc : Nat) : ZpeEngine :=
  match e.buffer? with
  | none => e
  | some buf =>
    match e.transport with
    | ZpeTransport.playing =>
      if e.looping then
        if buf.length = 0 then e
        else { e with position := (e.position + fc) % buf.length }
      else if buf.length ≤ e.position + fc then
        { e with position := buf.length, transport := ZpeTransport.stopped }
      else
        { e with position := e.position + fc }
    | _ => e

/-- Modelled from the spec: the output block of one Routing Mixer
invocation (steps 1, 4, 5, 6; implementation not under src). Stopped,
paused or no buffer: silence. Playing without a plugin: the fetched block
passes through. Playing with a plugin: the plugin transforms the fetched
block, except that an `error` status substitutes silence for the block. -/
def zpe_block_output (e : ZpeEngine) : Nat → Nat → Rat :=
  match e.buffer? with
  | none => silenceBlock
  | some buf =>
    match e.transport with
    | ZpeTransport.playing =>
      match e.plugin? with
      | none => zpe_fetch buf e.looping e.position
      | some pl =>
        match pl.status with
        | ZphProcessStatus.error => silenceBlock
        | _ => pl.transform (zpe_fetch buf e.looping e.position)
    | _ => silenceBlock

/-- One audio-callback invocation of the Routing Mixer: the output block
written to the device buffer, paired with the updated engine state. -/
def zpe_render_block (e : ZpeEngine) (fc : Nat) : (Nat → Nat → Rat) × ZpeEngine :=
  (zpe_block_output e, zpe_advance e fc)

/-- Run `k` consecutive mixer blocks of `fc` frames each. -/
def zpe_run_blocks (e : ZpeEngine) (fc : Nat) : Nat → ZpeEngine
  | 0 => e
  | k + 1 => zpe_run_blocks (zpe_render_block e fc).2 fc k

/-- Concrete decoded buffer for witnesses: mono, 6 frames, sample i holds
the value i + 1 (all samples non-zero). -/
def sampleBuf : AudioBuffer :=
  { channels := 1, length := 6, data := fun _ i => (i : Rat) + 1 }

/-- Concrete engine for witnesses: playing `sampleBuf` from position 0,
not looping, passthrough (no plugin attached). -/
def sampleEngine : ZpeEngine :=
  { sampleRate := 44100
  , bufferSize := 512
  , transport := ZpeTransport.playing
  , position := 0
  , looping := false
  , buffer? := some sampleBuf
  , plugin? := none }

/-- The witness engine with looping enabled. -/
def sampleEngineLoop : ZpeEngine :=
  { sampleEngine with looping := true }

/-- Plugin whose process reports the Error status, used by the C3
witness; its transform is the identity. -/
def errPlugin : AttachedPlugin :=
  { transform := fun blk => blk, status := ZphProcessStatus.error }

/-- The witness engine with the erroring plugin attached. -/
def errEngine : ZpeEngine :=
  { sampleEngine with plugin? := some errPlugin }

/- ----------------------------------------------------------------------
   Helper lemmas
   ---------------------------------------------------------------------- -/

lemma applyEvents_eq (evs : List (Nat × Rat)) :
    ∀ (f : Nat → Rat) (id : Nat),
      applyEvents f evs id = (lastValue? evs id).getD (f id) := by
  induction evs with
  | nil => intro f id; rfl
  | cons e rest ih =>
    intro f id
    show applyEvents (fun j => if j = e.1 then e.2 else f j) rest id = _
    rw [ih]
    cases h : lastValue? rest id with
    | some w => simp [lastValue?, h]
    | none =>
      by_cases hid : e.1 = id
      · simp [lastValue?, h, hid]
      · have hid2 : ¬ id = e.1 := fun hc => hid hc.symm
        simp [lastValue?, h, hid, hid2]

lemma lastValue?_map (l : List Nat) (g : Nat → Rat) (id : Nat) :
    lastValue? (l.map (fun i => (i, g i))) id =
      if id ∈ l then some (g id) else none := by
  induction l with
  | nil => rfl
  | cons a rest ih =>
    show lastValue? ((a, g a) :: rest.map (fun i => (i, g i))) id = _
    rw [lastValue?]
    rw [ih]
    by_cases hmem : id ∈ rest
    · simp [hmem]
    · by_cases ha : a = id
      · simp [hmem, ha]
      · have ha2 : ¬ id = a := fun hc => ha hc.symm
        simp [hmem, ha, ha2]

lemma zpe_advance_not_playing (e : ZpeEngine) (fc : Nat)
    (h : e.transport ≠ ZpeTransport.playing) : zpe_advance e fc = e := by
  obtain ⟨sr, bs, t, pos, loop, b, p⟩ := e
  cases b with
  | none => rfl
  | some buf =>
    cases t with
    | playing => exact absurd rfl h
    | stopped => rfl
    | paused => rfl

lemma zpe_run_blocks_stopped (fc : Nat) :
    ∀ (k : Nat) (e : ZpeEngine), e.transport = ZpeTransport.stopped →
      zpe_run_blocks e fc k = e := by
  intro k
  induction k with
  | zero => intro e _; rfl
  | succ k ih =>
    intro e h
    show zpe_run_blocks (zpe_advance e fc) fc k = e
    rw [zpe_advance_not_playing e fc (by rw [h]; intro hc; cases hc)]
    exact ih e h

lemma zpe_advance_playing_noloop (e : ZpeEngine) (buf : AudioBuffer) (fc : Nat)
    (hbuf : e.buffer? = some buf) (hloop : e.looping = false)
    (hplay : e.transport = ZpeTransport.playing) :
    zpe_advance e fc =
      if buf.length ≤ e.position + fc then
        { e with position := buf.length, transport := ZpeTransport.stopped }
      else
        { e with position := e.position + fc } := by
  unfold zpe_advance
  rw [hbuf, hplay, hloop]
  rfl

lemma zpe_advance_playing_loop (e : ZpeEngine) (buf : AudioBuffer) (fc : Nat)
    (hbuf : e.buffer? = some buf) (hloop : e.looping = true)
    (hplay : e.transport = ZpeTransport.playing) (hL : 0 < buf.length) :
    zpe_advance e fc = { e with position := (e.position + fc) % buf.length } := by
  unfold zpe_advance
  rw [hbuf, hplay, hloop]
  simp only [if_true]
  rw [if_neg (by omega)]

lemma zpe_run_noloop_stops (fc : Nat) :
    ∀ (k : Nat) (e : ZpeEngine) (buf : AudioBuffer),
      e.buffer? = some buf → e.looping = false →
      e.transport = ZpeTransport.playing →
      buf.length ≤ e.position + k * fc → 0 < k →
      (zpe_run_blocks e fc k).transport = ZpeTransport.stopped := by
  intro k
  induction k with
  | zero => intro e buf _ _ _ _ hk; omega
  | succ k ih =>
    intro e buf hbuf hloop hplay hlen _
    show (zpe_run_blocks (zpe_advance e fc) fc k).transport = _
    rw [zpe_advance_playing_noloop e buf fc hbuf hloop hplay]
    by_cases hend : buf.length ≤ e.position + fc
    · rw [if_pos hend]
      rw [zpe_run_blocks_stopped fc k _ rfl]
    · rw [if_neg hend]
      have hsm : (k + 1) * fc = k * fc + fc := Nat.succ_mul k fc
      have hk : 0 < k := by
        rcases Nat.eq_zero_or_pos k with h0 | h0
        · subst h0; omega
        · exact h0
      exact ih _ buf hbuf hloop hplay (by show buf.length ≤ e.position + fc + k * fc; omega) hk

lemma zpe_run_loop_invariant (fc : Nat) :
    ∀ (k : Nat) (e : ZpeEngine) (buf : AudioBuffer),
      e.buffer? = some buf → e.looping = true →
      e.transport = ZpeTransport.playing →
      0 < buf.length → e.position < buf.length →
      (zpe_run_blocks e fc k).transport = ZpeTransport.playing ∧
      (zpe_run_blocks e fc k).position = (e.position + k * fc) % buf.length ∧
      (zpe_run_blocks e fc k).buffer? = some buf ∧
      (zpe_run_blocks e fc k).looping = true ∧
      (zpe_run_blocks e fc k).plugin? = e.plugin? := by
  intro k
  induction k with
  | zero =>
    intro e buf hbuf hloop hplay hL hpos
    refine ⟨hplay, ?_, hbuf, hloop, rfl⟩
    show e.position = (e.position + 0 * fc) % buf.length
    rw [Nat.zero_mul, Nat.add_zero, Nat.mod_eq_of_lt hpos]
  | succ k ih =>
    intro e buf hbuf hloop hplay hL hpos
    have hstep : zpe_run_blocks e fc (k + 1) =
        zpe_run_blocks (zpe_advance e fc) fc k := rfl
    rw [hstep, zpe_advance_playing_loop e buf fc hbuf hloop hplay hL]
    have hres := ih { e with position := (e.position + fc) % buf.length } buf
      hbuf hloop hplay hL (Nat.mod_lt _ hL)
    refine ⟨hres.1, ?_, hres.2.2.1, hres.2.2.2.1, hres.2.2.2.2⟩
    rw [hres.2.1]
    show ((e.position + fc) % buf.length + k * fc) % buf.length = _
    rw [Nat.mod_add_mod]
    have hsm : (k + 1) * fc = k * fc + fc := Nat.succ_mul k fc
    have harg : e.position + fc + k * fc = e.position + (k + 1) * fc := by omega
    rw [harg]

lemma zpe_advance_plugin_indep (e : ZpeEngine) (q : Option AttachedPlugin) (fc : Nat) :
    (zpe_advance { e with plugin? := q } fc).transport =
      (zpe_advance e fc).transport ∧
    (zpe_advance { e with plugin? := q } fc).position =
      (zpe_advance e fc).position := by
  obtain ⟨sr, bs, t, pos, loop, b, p⟩ := e
  cases b with
  | none => exact ⟨rfl, rfl⟩
  | some buf =>
    cases t with
    | playing =>
      unfold zpe_advance
      dsimp only
      split_ifs <;> exact ⟨rfl, rfl⟩
    | stopped => exact ⟨rfl, rfl⟩
    | paused => exact ⟨rfl, rfl⟩

/- ----------------------------------------------------------------------
   Claims
   ---------------------------------------------------------------------- -/

/-- C1: if the last event enqueued for identifier `id` before the block
carries value `v`, then the next `zph_process` applies exactly that value
for `id` (the queue is drained empty), and no distinct value from an
earlier event for `id` is ever the applied one. -/
theorem c1_last_event_wins (p : ZphPlugin) (id : Nat) (v : Rat)
    (h : lastValue? p.pending id = some v) :
    (zph_process p).params id = v ∧ (zph_process p).pending = [] ∧
      ∀ w, (id, w) ∈ p.pending → w ≠ v → (zph_process p).params id ≠ w := by
  have hmain : (zph_process p).params id = v := by
    show applyEvents p.params p.pending id = v
    rw [applyEvents_eq, h]
    rfl
  refine ⟨hmain, rfl, ?_⟩
  intro w _ hw
  rw [hmain]
  exact fun hc => hw hc.symm

/-- C1 witness: on the concrete host with pending events
`[(1, 2), (1, 5), (2, 7)]`, the drained value for identifier 1 is 5, the
last one enqueued. -/
theorem c1_last_event_wins_witness :
    (zph_process sampleHost).params 1 = 5 :=
  (c1_last_event_wins sampleHost 1 5 (by decide)).1

/-- C7: `zph_save_state` immediately followed by `zph_load_state` of the
saved blob onto a freshly activated plugin `q` with identical
configuration (the same parameter identifiers) reproduces identical
`zph_get_param_value` results for every parameter identifier. -/
theorem c7_state_round_trip (p q : ZphPlugin)
    (hids : q.paramIds = p.paramIds) (id : Nat) :
    zph_get_param_value (zph_load_state q (zph_save_blob p)) id =
      zph_get_param_value p id := by
  unfold zph_get_param_value zph_load_state
  by_cases hmem : id ∈ p.paramIds
  · have hmem2 : id ∈ q.paramIds := by rw [hids]; exact hmem
    simp only [hmem, hmem2, if_pos]
    have : applyEvents q.params (zph_save_blob p) id = p.params id := by
      rw [applyEvents_eq, zph_save_blob, lastValue?_map]
      simp [hmem]
    rw [this]
  · have hmem2 : id ∉ q.paramIds := by rw [hids]; exact hmem
    simp [hmem, hmem2]

/-- C7 witness: saving `sampleHost` and loading the blob into the freshly
configured `freshHost` reproduces the saved value of parameter 1. -/
theorem c7_state_round_trip_witness :
    zph_get_param_value (zph_load_state freshHost (zph_save_blob sampleHost)) 1 =
      zph_get_param_value sampleHost 1 :=
  c7_state_round_trip sampleHost freshHost rfl 1

/-- C8: the two-phase size-query protocol of `zph_save_state`: a call with
no destination buffer returns false, writes nothing, and reports the
required byte count in the size out-parameter; a subsequent call with a
buffer whose capacity is at least that reported size returns true, writes
the state blob, and reports the number of bytes written. -/
theorem c8_save_two_phase (p : ZphPlugin) :
    (zph_save_state p false 0).1 = false ∧
    (zph_save_state p false 0).2.1 = zph_required_size p ∧
    (zph_save_state p false 0).2.2 = none ∧
    ∀ cap, (zph_save_state p false 0).2.1 ≤ cap →
      zph_save_state p true cap =
        (true, zph_required_size p, some (zph_save_blob p)) := by
  refine ⟨rfl, rfl, rfl, ?_⟩
  intro cap hcap
  have hcap2 : zph_required_size p ≤ cap := hcap
  simp [zph_save_state, hcap2]

/-- C8 witness: the protocol evaluated on the concrete host: the size
query reports 2 entries and the sized call writes the blob. -/
theorem c8_save_two_phase_witness :
    (zph_save_state sampleHost false 0).1 = false ∧
    zph_save_state sampleHost true 2 =
      (true, zph_required_size sampleHost, some (zph_save_blob sampleHost)) :=
  ⟨(c8_save_two_phase sampleHost).1,
    (c8_save_two_phase sampleHost).2.2.2 2 (by decide)⟩

/-- C9: `zpe_create` with sample_rate 0 or buffer_size 0 succeeds (the
model is total) and substitutes the defaults 44100 Hz and 512 frames, so
`zpe_get_sample_rate` returns 44100 when 0 was passed. -/
theorem c9_create_defaults (sr : Rat) (b : Nat) :
    zpe_get_sample_rate (zpe_create 0 b) = 44100 ∧
    (zpe_create sr 0).bufferSize = 512 ∧
    (zpe_create sr b).sampleRate = (if sr = 0 then 44100 else sr) ∧
    (zpe_create sr b).bufferSize = (if b = 0 then 512 else b) :=
  ⟨rfl, rfl, rfl, rfl⟩

/-- C10: with no file loaded, `zpe_get_length` returns 0 and
`zpe_get_channel_count` returns 0. -/
theorem c10_no_file_zero (e : ZpeEngine) (h : e.buffer? = none) :
    zpe_get_length e = 0 ∧ zpe_get_channel_count e = 0 := by
  unfold zpe_get_length zpe_get_channel_count
  rw [h]
  exact ⟨rfl, rfl⟩

/-- C10 witness: a freshly created engine has no file loaded, and both
queries return 0 on it. -/
theorem c10_no_file_zero_witness :
    zpe_get_length (zpe_create 44100 512) = 0 ∧
    zpe_get_channel_count (zpe_create 44100 512) = 0 :=
  c10_no_file_zero (zpe_create 44100 512) rfl

/-- C5: in every engine state, `zpe_stop` transitions to Stopped and
resets position to 0, and `zpe_load_file` stops playback, replaces the
decoded buffer wholesale and resets position to 0 — regardless of the
previous transport state or previously loaded buffer. -/
theorem c5_stop_load_reset (e : ZpeEngine) (buf : AudioBuffer) :
    (zpe_stop e).transport = ZpeTransport.stopped ∧
    (zpe_stop e).position = 0 ∧
    (zpe_load_file e buf).transport = ZpeTransport.stopped ∧
    (zpe_load_file e buf).position = 0 ∧
    (zpe_load_file e buf).buffer? = some buf :=
  ⟨rfl, rfl, rfl, rfl, rfl⟩

/-- C4: with a loaded buffer of length L > 0, `zpe_seek n` is legal in any
transport state (it leaves the transport unchanged) and sets the position
to n clamped into [0, L): the result is always strictly below L, and a
request already inside the buffer is taken verbatim. -/
theorem c4_seek_clamps (e : ZpeEngine) (buf : AudioBuffer) (n : Nat)
    (hbuf : e.buffer? = some buf) (hL : 0 < buf.length) :
    (zpe_seek e n).position < buf.length ∧
    (n < buf.length → (zpe_seek e n).position = n) ∧
    (zpe_seek e n).transport = e.transport := by
  unfold zpe_seek
  rw [hbuf]
  refine ⟨?_, ?_, rfl⟩
  · show min n (buf.length - 1) < buf.length
    omega
  · intro hn
    show min n (buf.length - 1) = n
    omega

/-- C4 witness: on the concrete 6-frame engine, seeking to 100 clamps the
position below the length, and seeking to 3 lands exactly on 3. -/
theorem c4_seek_clamps_witness :
    (zpe_seek sampleEngine 100).position < sampleBuf.length ∧
    (zpe_seek sampleEngine 3).position = 3 :=
  ⟨(c4_seek_clamps sampleEngine sampleBuf 100 rfl (by decide)).1,
    (c4_seek_clamps sampleEngine sampleBuf 3 rfl (by decide)).2.1 (by decide)⟩

/-- C2: end-of-buffer behaviour of the per-block routing algorithm, from
Playing with a loaded buffer of length L > 0. With looping disabled,
starting from position 0, once the k blocks of fc frames cover the whole
buffer (L ≤ k * fc, the final block zero-filling any remainder), the
transport has transitioned to Stopped automatically. With looping
enabled, playback past end-of-buffer wraps modulo L and the transport is
still Playing after any number of blocks, so output continues
indefinitely. -/
theorem c2_loop_end_behavior (e : ZpeEngine) (buf : AudioBuffer) (fc k : Nat)
    (hbuf : e.buffer? = some buf) (hL : 0 < buf.length)
    (hplay : e.transport = ZpeTransport.playing) :
    (e.looping = false → e.position = 0 → buf.length ≤ k * fc →
      (zpe_run_blocks e fc k).transport = ZpeTransport.stopped) ∧
    (e.looping = true → e.position < buf.length →
      (zpe_run_blocks e fc k).transport = ZpeTransport.playing ∧
      (zpe_run_blocks e fc k).position = (e.position + k * fc) % buf.length) := by
  constructor
  · intro hloop hpos hlen
    have hk : 0 < k := by
      rcases Nat.eq_zero_or_pos k with h0 | h0
      · subst h0; omega
      · exact h0
    exact zpe_run_noloop_stops fc k e buf hbuf hloop hplay (by omega) hk
  · intro hloop hpos
    have h := zpe_run_loop_invariant fc k e buf hbuf hloop hplay hL hpos
    exact ⟨h.1, h.2.1⟩

/-- C2 witness: two 4-frame blocks cover the 6-frame buffer, so the
non-looping engine reaches Stopped; the looping engine is still Playing
with position wrapped to (0 + 2 * 4) % 6 = 2. -/
theorem c2_loop_end_behavior_witness :
    (zpe_run_blocks sampleEngine 4 2).transport = ZpeTransport.stopped ∧
    (zpe_run_blocks sampleEngineLoop 4 2).transport = ZpeTransport.playing ∧
    (zpe_run_blocks sampleEngineLoop 4 2).position = 2 := by
  refine ⟨(c2_loop_end_behavior sampleEngine sampleBuf 4 2 rfl (by decide) rfl).1
      rfl rfl (by decide), ?_, ?_⟩
  · exact ((c2_loop_end_behavior sampleEngineLoop sampleBuf 4 2 rfl (by decide) rfl).2
      rfl (by decide)).1
  · rw [((c2_loop_end_behavior sampleEngineLoop sampleBuf 4 2 rfl (by decide) rfl).2
      rfl (by decide)).2]
    decide

/-- C3: when the attached plugin's `zph_process` returns the Error status
for a block, the routing mixer writes silence to the output buffer for
that block, and the resulting transport state and playback position are
exactly what they would be with any other plugin attached or none at all:
the per-block processing failure never stops playback. -/
theorem c3_error_block_silence (e : ZpeEngine) (buf : AudioBuffer)
    (pl : AttachedPlugin) (fc : Nat)
    (hbuf : e.buffer? = some buf) (hplay : e.transport = ZpeTransport.playing)
    (hpl : e.plugin? = some pl) (herr : pl.status = ZphProcessStatus.error) :
    (zpe_render_block e fc).1 = silenceBlock ∧
    ∀ q : Option AttachedPlugin,
      (zpe_render_block { e with plugin? := q } fc).2.transport =
        (zpe_render_block e fc).2.transport ∧
      (zpe_render_block { e with plugin? := q } fc).2.position =
        (zpe_render_block e fc).2.position := by
  constructor
  · show zpe_block_output e = silenceBlock
    simp only [zpe_block_output, hbuf, hplay, hpl, herr]
  · intro q
    exact zpe_advance_plugin_indep e q fc

/-- C3 witness: on the concrete playing engine with the erroring plugin,
the rendered block is silence and detaching the plugin leaves the
resulting transport state identical. -/
theorem c3_error_block_silence_witness :
    (zpe_render_block errEngine 4).1 = silenceBlock ∧
    (zpe_render_block { errEngine with plugin? := none } 4).2.transport =
      (zpe_render_block errEngine 4).2.transport :=
  ⟨(c3_error_block_silence errEngine sampleBuf errPlugin 4 rfl rfl rfl rfl).1,
    ((c3_error_block_silence errEngine sampleBuf errPlugin 4 rfl rfl rfl rfl).2 none).1⟩

/-- C6: in passthrough mode (no plugin attached), for a playing engine and
a block that does not exceed the remaining buffer length, the output block
written by the routing mixer equals, sample for sample, the block read
from the decoded buffer at the current position. -/
theorem c6_passthrough_copies (e : ZpeEngine) (buf : AudioBuffer) (fc : Nat)
    (hbuf : e.buffer? = some buf) (hplay : e.transport = ZpeTransport.playing)
    (hpl : e.plugin? = none) (hfit : e.position + fc ≤ buf.length) :
    ∀ ch i, i < fc →
      (zpe_render_block e fc).1 ch i = buf.data ch (e.position + i) := by
  intro ch i hi
  show zpe_block_output e ch i = _
  unfold zpe_block_output
  rw [hbuf, hplay, hpl]
  show zpe_fetch buf e.looping e.position ch i = _
  unfold zpe_fetch
  rw [if_pos (by omega)]

/-- C6 witness: sample 2 of a 4-frame passthrough block from position 0 of
the concrete buffer equals buffer sample 2. -/
theorem c6_passthrough_copies_witness :
    (zpe_render_block sampleEngine 4).1 0 2 = sampleBuf.data 0 2 :=
  c6_passthrough_copies sampleEngine sampleBuf 4 rfl rfl rfl (by decide) 0 2 (by decide)
